import Mathlib

/-!
Shallow embedding of `src/Consumer.ts` (mediasoup-client `Consumer` class).

The `Consumer` class is a lifecycle state machine over an externally supplied
media track.  We model:

* the mutable state (`closed`, `paused`, the owned track's `enabled`,
  `stopped` and end-of-life listener registration);
* each public operation (`close`, `transportClosed`, `pause`, `resume`,
  `getStats`) and the private track-ended handler as a list of primitive
  steps (`Step`), mirroring the statement order of the TypeScript method
  bodies.  Emissions are steps, so the order between state mutation and
  event emission is preserved and provable;
* the two event channels of the class (the main `EnhancedEventEmitter`
  channel carrying both public and `@`-prefixed private events, and the
  `_observer` channel), together with the delivery mode used at each call
  site: `Delivery.plain` for `this.emit(...)` (handler failures propagate)
  and `Delivery.isolated` for `this.safeEmit(...)` / `observer.safeEmit(...)`
  (handler failures are caught by the emitter);
* the `try { removeEventListener; stop } catch {}` body of `destroyTrack`
  with explicitly fallible track primitives (`Except`-valued), so the
  swallow-failures behaviour is a theorem rather than an assumption.
-/

namespace Mediasoup

/-- External `MediaStreamTrack` resource as the `Consumer` sees it:
an enabled flag it may write, a stop operation, and an `ended`
event-listener registration.  The two `Fails` flags model a misbehaving
external resource whose `removeEventListener` / `stop` calls throw. -/
structure Track where
  kind : String
  enabled : Bool
  stopped : Bool
  endedListener : Bool
  removeListenerFails : Bool
  stopFails : Bool
deriving Repr, DecidableEq

/-- `track.removeEventListener('ended', onTrackEnded)`: fallible. -/
def Track.removeEndedListener (t : Track) : Except Unit Track :=
  if t.removeListenerFails then .error () else .ok { t with endedListener := false }

/-- `track.stop()`: fallible. -/
def Track.stop (t : Track) : Except Unit Track :=
  if t.stopFails then .error () else .ok { t with stopped := true }

/-- `Consumer.destroyTrack()`: remove the `ended` listener, then stop the
track, catching and discarding any failure (the `try { ... } catch {}`).
A failure aborts the remaining calls but is not propagated. -/
def Track.destroy (t : Track) : Track :=
  match t.removeEndedListener with
  | .error _ => t
  | .ok t1 =>
    match t1.stop with
    | .error _ => t1
    | .ok t2 => t2

/-- Opaque negotiated RTP parameters (immutable after construction). -/
structure RtpParameters where
  raw : String
deriving Repr, DecidableEq

/-- The `Consumer` entity's state. -/
structure Consumer where
  id : String
  localId : String
  producerId : String
  closed : Bool
  rtpReceiver : Option String
  track : Track
  rtpParameters : RtpParameters
  paused : Bool
  appData : String
deriving Repr, DecidableEq

/-- Events on the main channel (`ConsumerEvents` in the source): public
lifecycle events (`transportclose`, `trackended`) plus the `@`-prefixed
private signals (`'@getstats'`, `'@close'`, `'@pause'`, `'@resume'`).
The `'@getstats'` event carries the pending promise's resolve/reject
callback pair in the source; the payload is abstracted here. -/
inductive MainEvent
  | transportclose
  | trackended
  | getstats
  | closeSignal
  | pauseSignal
  | resumeSignal
deriving Repr, DecidableEq

/-- Events on the `_observer` channel (`ConsumerObserverEvents`). -/
inductive ObserverEvent
  | close
  | pause
  | resume
  | trackended
deriving Repr, DecidableEq

/-- Delivery mode of an emission: `plain` is `emit` (a listener failure
propagates to the caller of the triggering operation), `isolated` is
`safeEmit` (listener failures are caught by the emitter). -/
inductive Delivery
  | plain
  | isolated
deriving Repr, DecidableEq

/-- One event emission: channel, event, and the delivery mode used at the
call site in the source. -/
inductive Emission
  | main (e : MainEvent) (d : Delivery)
  | observer (e : ObserverEvent) (d : Delivery)
deriving Repr, DecidableEq

/-- Primitive steps of a method body, in source statement order. -/
inductive Step
  | setClosed
  | destroyTrack
  | setPaused (b : Bool)
  | setTrackEnabled (b : Bool)
  | addEndedListener
  | emit (e : Emission)
deriving Repr, DecidableEq

/-- Effect of one step on the `Consumer` state.  Emissions do not change
the state. -/
def applyStep (c : Consumer) : Step → Consumer
  | .setClosed => { c with closed := true }
  | .destroyTrack => { c with track := c.track.destroy }
  | .setPaused b => { c with paused := b }
  | .setTrackEnabled b => { c with track := { c.track with enabled := b } }
  | .addEndedListener => { c with track := { c.track with endedListener := true } }
  | .emit _ => c

/-- Run a list of steps. -/
def runSteps (c : Consumer) (l : List Step) : Consumer :=
  l.foldl applyStep c

/-- The emissions of a step list, in order. -/
def emissionsOf (l : List Step) : List Emission :=
  l.filterMap fun s =>
    match s with
    | .emit e => some e
    | _ => none

/-- `close()`:
`if (this._closed) return; this._closed = true; this.destroyTrack();
this.emit('@close'); this._observer.safeEmit('close');` -/
def Consumer.closeSteps (c : Consumer) : List Step :=
  if c.closed then []
  else
    [.setClosed, .destroyTrack,
     .emit (.main .closeSignal .plain),
     .emit (.observer .close .isolated)]

/-- `transportClosed()`:
`if (this._closed) return; this._closed = true; this.destroyTrack();
this.safeEmit('transportclose'); this._observer.safeEmit('close');` -/
def Consumer.transportClosedSteps (c : Consumer) : List Step :=
  if c.closed then []
  else
    [.setClosed, .destroyTrack,
     .emit (.main .transportclose .isolated),
     .emit (.observer .close .isolated)]

/-- `pause()`:
`if (this._closed) return; if (this._paused) return;
this._paused = true; this._track.enabled = false;
this.emit('@pause'); this._observer.safeEmit('pause');` -/
def Consumer.pauseSteps (c : Consumer) : List Step :=
  if c.closed then []
  else if c.paused then []
  else
    [.setPaused true, .setTrackEnabled false,
     .emit (.main .pauseSignal .plain),
     .emit (.observer .pause .isolated)]

/-- `resume()`:
`if (this._closed) return; if (!this._paused) return;
this._paused = false; this._track.enabled = true;
this.emit('@resume'); this._observer.safeEmit('resume');` -/
def Consumer.resumeSteps (c : Consumer) : List Step :=
  if c.closed then []
  else if !c.paused then []
  else
    [.setPaused false, .setTrackEnabled true,
     .emit (.main .resumeSignal .plain),
     .emit (.observer .resume .isolated)]

/-- `onTrackEnded()` (the private track `'ended'` handler):
`this.safeEmit('trackended'); this._observer.safeEmit('trackended');`
No guard and no state mutation. -/
def Consumer.onTrackEndedSteps (_c : Consumer) : List Step :=
  [.emit (.main .trackended .isolated),
   .emit (.observer .trackended .isolated)]

/-- Outcome of `getStats()`: the returned promise either fails at once
with `InvalidStateError('closed')` or stays pending, its resolve/reject
pair handed to the `'@getstats'` listener. -/
inductive GetStatsOutcome
  | invalidStateError
  | pending
deriving Repr, DecidableEq

/-- `getStats()`:
`if (this._closed) throw new InvalidStateError('closed');
return new Promise((resolve, reject) => { this.safeEmit('@getstats', resolve, reject); });`
Returns the outcome together with the emissions performed. -/
def Consumer.getStats (c : Consumer) : GetStatsOutcome × List Emission :=
  if c.closed then (.invalidStateError, [])
  else (.pending, [.main .getstats .isolated])

/-- Constructor arguments (the object literal taken by `constructor`). -/
structure ConsumerOptions where
  id : String
  localId : String
  producerId : String
  rtpReceiver : Option String
  track : Track
  rtpParameters : RtpParameters
  appData : Option String
deriving Repr, DecidableEq

/-- Field initialisation performed by the constructor body:
`this._paused = !track.enabled; this._appData = appData || {};` etc. -/
def Consumer.initial (o : ConsumerOptions) : Consumer :=
  { id := o.id
    localId := o.localId
    producerId := o.producerId
    closed := false
    rtpReceiver := o.rtpReceiver
    track := o.track
    rtpParameters := o.rtpParameters
    paused := !o.track.enabled
    appData := o.appData.getD "" }

/-- Steps run by the constructor after field initialisation: only
`handleTrack()`, i.e. `this._track.addEventListener('ended', this.onTrackEnded)`.
No emission. -/
def Consumer.createSteps : List Step :=
  [.addEndedListener]

/-- The constructor: field initialisation followed by `handleTrack()`. -/
def Consumer.create (o : ConsumerOptions) : Consumer :=
  runSteps (Consumer.initial o) Consumer.createSteps

/-- `kind` getter: `this._track.kind`. -/
def Consumer.kind (c : Consumer) : String :=
  c.track.kind

/-- The state-mutating operations of the class (`getStats` mutates
nothing and is kept separate). -/
inductive Op
  | pause
  | resume
  | close
  | transportClosed
  | onTrackEnded
deriving Repr, DecidableEq

/-- The step list an operation runs from a given state. -/
def Consumer.opSteps (c : Consumer) : Op → List Step
  | .pause => c.pauseSteps
  | .resume => c.resumeSteps
  | .close => c.closeSteps
  | .transportClosed => c.transportClosedSteps
  | .onTrackEnded => c.onTrackEndedSteps

/-- State after running one operation. -/
def Consumer.applyOp (c : Consumer) (op : Op) : Consumer :=
  runSteps c (c.opSteps op)

/-- Emissions produced by one operation from a given state. -/
def Consumer.opEmissions (c : Consumer) (op : Op) : List Emission :=
  emissionsOf (c.opSteps op)

/-- State after a sequence of operations. -/
def Consumer.runOps (c : Consumer) (ops : List Op) : Consumer :=
  ops.foldl Consumer.applyOp c

/-- The concatenated step trace of a sequence of operations. -/
def Consumer.opsTrace (c : Consumer) : List Op → List Step
  | [] => []
  | op :: rest => c.opSteps op ++ (c.applyOp op).opsTrace rest

/-- Whether an operation is a terminating call. -/
def Op.isTerminating : Op → Bool
  | .close => true
  | .transportClosed => true
  | _ => false

/-- Number of `destroyTrack` (stop + detach) steps in a trace. -/
def destroyCount (l : List Step) : Nat :=
  l.countP fun s => decide (s = Step.destroyTrack)

/-- `close()` as a state transformer. -/
def Consumer.close (c : Consumer) : Consumer :=
  c.applyOp .close

/-- Emissions of one `close()` call. -/
def Consumer.closeEmissions (c : Consumer) : List Emission :=
  c.opEmissions .close

/-- `transportClosed()` as a state transformer. -/
def Consumer.transportClosed (c : Consumer) : Consumer :=
  c.applyOp .transportClosed

/-- Emissions of one `transportClosed()` call. -/
def Consumer.transportClosedEmissions (c : Consumer) : List Emission :=
  c.opEmissions .transportClosed

/-- `pause()` as a state transformer. -/
def Consumer.pause (c : Consumer) : Consumer :=
  c.applyOp .pause

/-- Emissions of one `pause()` call. -/
def Consumer.pauseEmissions (c : Consumer) : List Emission :=
  c.opEmissions .pause

/-- `resume()` as a state transformer. -/
def Consumer.resume (c : Consumer) : Consumer :=
  c.applyOp .resume

/-- Emissions of one `resume()` call. -/
def Consumer.resumeEmissions (c : Consumer) : List Emission :=
  c.opEmissions .resume

/-- The track `'ended'` handler as a state transformer. -/
def Consumer.onTrackEnded (c : Consumer) : Consumer :=
  c.applyOp .onTrackEnded

/-- Emissions of one invocation of the track `'ended'` handler. -/
def Consumer.onTrackEndedEmissions (c : Consumer) : List Emission :=
  c.opEmissions .onTrackEnded

/-- The state/resource synchronisation invariant of the spec: the owned
track's enabled flag equals the negation of `paused`. -/
def TrackMirrorsPaused (c : Consumer) : Prop :=
  c.track.enabled = !c.paused

instance (c : Consumer) : Decidable (TrackMirrorsPaused c) := by
  unfold TrackMirrorsPaused; infer_instance

/-! Concrete states used by witnesses and counterexamples. -/

/-- A well-behaved enabled audio track with its `ended` listener attached. -/
def sampleTrack : Track :=
  { kind := "audio", enabled := true, stopped := false, endedListener := true,
    removeListenerFails := false, stopFails := false }

/-- An open, active `Consumer` over `sampleTrack`. -/
def sampleOpen : Consumer :=
  { id := "consumer-1", localId := "local-1", producerId := "producer-1",
    closed := false, rtpReceiver := none, track := sampleTrack,
    rtpParameters := { raw := "negotiated" }, paused := false, appData := "" }

/-- A closed `Consumer`. -/
def sampleClosed : Consumer :=
  { sampleOpen with closed := true }

/-- An open, paused `Consumer` (track disabled). -/
def samplePaused : Consumer :=
  { sampleOpen with paused := true, track := { sampleTrack with enabled := false } }

/-- An open `Consumer` whose track's `stop()` throws. -/
def sampleStopFailing : Consumer :=
  { sampleOpen with track := { sampleTrack with stopFails := true } }

/-! Helper lemmas shared by the claim theorems. -/

/-- Once closed, every operation leaves the state untouched. -/
theorem applyOp_of_closed (c : Consumer) (op : Op) (h : c.closed = true) :
    c.applyOp op = c := by
  cases op <;>
    simp [Consumer.applyOp, Consumer.opSteps, Consumer.closeSteps,
      Consumer.transportClosedSteps, Consumer.pauseSteps, Consumer.resumeSteps,
      Consumer.onTrackEndedSteps, h, runSteps, applyStep]

/-- Once closed, every operation sequence leaves the state untouched. -/
theorem runOps_of_closed (c : Consumer) (ops : List Op) (h : c.closed = true) :
    c.runOps ops = c := by
  induction ops with
  | nil => rfl
  | cons op rest ih =>
    have hstep : c.runOps (op :: rest) = (c.applyOp op).runOps rest := rfl
    rw [hstep, applyOp_of_closed c op h, ih]

/-- Non-terminating operations do not change the closed flag. -/
theorem applyOp_closed_of_nonterm (c : Consumer) (op : Op)
    (h : op.isTerminating = false) :
    (c.applyOp op).closed = c.closed := by
  cases op with
  | close => simp [Op.isTerminating] at h
  | transportClosed => simp [Op.isTerminating] at h
  | pause =>
    by_cases hc : c.closed = true
    · rw [applyOp_of_closed c _ hc]
    · have hc0 : c.closed = false := by simpa using hc
      by_cases hp : c.paused = true
      · simp [Consumer.applyOp, Consumer.opSteps, Consumer.pauseSteps, hc0, hp,
          runSteps, applyStep]
      · have hp0 : c.paused = false := by simpa using hp
        simp [Consumer.applyOp, Consumer.opSteps, Consumer.pauseSteps, hc0, hp0,
          runSteps, applyStep]
  | resume =>
    by_cases hc : c.closed = true
    · rw [applyOp_of_closed c _ hc]
    · have hc0 : c.closed = false := by simpa using hc
      by_cases hp : c.paused = true
      · simp [Consumer.applyOp, Consumer.opSteps, Consumer.resumeSteps, hc0, hp,
          runSteps, applyStep]
      · have hp0 : c.paused = false := by simpa using hp
        simp [Consumer.applyOp, Consumer.opSteps, Consumer.resumeSteps, hc0, hp0,
          runSteps, applyStep]
  | onTrackEnded =>
    simp [Consumer.applyOp, Consumer.opSteps, Consumer.onTrackEndedSteps,
      runSteps, applyStep]

/-- A terminating operation from an open state sets the closed flag. -/
theorem applyOp_closed_of_term (c : Consumer) (op : Op)
    (hterm : op.isTerminating = true) (h : c.closed = false) :
    (c.applyOp op).closed = true := by
  cases op with
  | close =>
    simp [Consumer.applyOp, Consumer.opSteps, Consumer.closeSteps, h,
      runSteps, applyStep]
  | transportClosed =>
    simp [Consumer.applyOp, Consumer.opSteps, Consumer.transportClosedSteps, h,
      runSteps, applyStep]
  | pause => simp [Op.isTerminating] at hterm
  | resume => simp [Op.isTerminating] at hterm
  | onTrackEnded => simp [Op.isTerminating] at hterm

/-- `pause()` and `resume()` re-establish the track/paused mirror. -/
theorem mirror_applyOp (c : Consumer) (op : Op)
    (hop : op = Op.pause ∨ op = Op.resume) (h : TrackMirrorsPaused c) :
    TrackMirrorsPaused (c.applyOp op) := by
  rcases hop with hop | hop <;> subst hop
  · by_cases hc : c.closed = true
    · rw [applyOp_of_closed c _ hc]; exact h
    · have hc0 : c.closed = false := by simpa using hc
      by_cases hp : c.paused = true
      · simpa [Consumer.applyOp, Consumer.opSteps, Consumer.pauseSteps, hc0, hp,
          runSteps, applyStep] using h
      · have hp0 : c.paused = false := by simpa using hp
        simp [TrackMirrorsPaused, Consumer.applyOp, Consumer.opSteps,
          Consumer.pauseSteps, hc0, hp0, runSteps, applyStep]
  · by_cases hc : c.closed = true
    · rw [applyOp_of_closed c _ hc]; exact h
    · have hc0 : c.closed = false := by simpa using hc
      by_cases hp : c.paused = true
      · simp [TrackMirrorsPaused, Consumer.applyOp, Consumer.opSteps,
          Consumer.resumeSteps, hc0, hp, runSteps, applyStep]
      · have hp0 : c.paused = false := by simpa using hp
        simpa [Consumer.applyOp, Consumer.opSteps, Consumer.resumeSteps, hc0, hp0,
          runSteps, applyStep] using h

/-- `destroyCount` distributes over concatenation. -/
theorem destroyCount_append (a b : List Step) :
    destroyCount (a ++ b) = destroyCount a + destroyCount b := by
  simp [destroyCount, List.countP_append]

/-- An operation run from a closed state performs no destroy step. -/
theorem destroyCount_opSteps_of_closed (c : Consumer) (op : Op)
    (h : c.closed = true) :
    destroyCount (c.opSteps op) = 0 := by
  cases op <;>
    simp [Consumer.opSteps, Consumer.closeSteps, Consumer.transportClosedSteps,
      Consumer.pauseSteps, Consumer.resumeSteps, Consumer.onTrackEndedSteps, h,
      destroyCount]

/-- A trace run from a closed state contains no destroy step. -/
theorem destroyCount_trace_of_closed (c : Consumer) (ops : List Op)
    (h : c.closed = true) :
    destroyCount (c.opsTrace ops) = 0 := by
  induction ops generalizing c with
  | nil => rfl
  | cons op rest ih =>
    have hstep : c.opsTrace (op :: rest) = c.opSteps op ++ (c.applyOp op).opsTrace rest := rfl
    rw [hstep, destroyCount_append, destroyCount_opSteps_of_closed c op h,
      applyOp_of_closed c op h, ih c h]

/-- From an open state, a trace contains exactly one destroy step iff the
operation sequence contains a terminating call. -/
theorem destroyCount_trace_of_open (c : Consumer) (ops : List Op)
    (h : c.closed = false) :
    destroyCount (c.opsTrace ops) = if ops.any Op.isTerminating then 1 else 0 := by
  induction ops generalizing c with
  | nil => simp [Consumer.opsTrace, destroyCount]
  | cons op rest ih =>
    have hstep : c.opsTrace (op :: rest) = c.opSteps op ++ (c.applyOp op).opsTrace rest := rfl
    rw [hstep, destroyCount_append]
    by_cases hterm : op.isTerminating = true
    · have h1 : destroyCount (c.opSteps op) = 1 := by
        cases op with
        | close => simp [Consumer.opSteps, Consumer.closeSteps, h, destroyCount]
        | transportClosed =>
          simp [Consumer.opSteps, Consumer.transportClosedSteps, h, destroyCount]
        | pause => simp [Op.isTerminating] at hterm
        | resume => simp [Op.isTerminating] at hterm
        | onTrackEnded => simp [Op.isTerminating] at hterm
      have h2 := applyOp_closed_of_term c op hterm h
      rw [h1, destroyCount_trace_of_closed _ rest h2, List.any_cons, hterm]
      simp
    · have hterm0 : op.isTerminating = false := by simpa using hterm
      have h1 : destroyCount (c.opSteps op) = 0 := by
        cases op with
        | close => simp [Op.isTerminating] at hterm0
        | transportClosed => simp [Op.isTerminating] at hterm0
        | pause =>
          by_cases hp : c.paused = true
          · simp [Consumer.opSteps, Consumer.pauseSteps, h, hp, destroyCount]
          · have hp0 : c.paused = false := by simpa using hp
            simp [Consumer.opSteps, Consumer.pauseSteps, h, hp0, destroyCount]
        | resume =>
          by_cases hp : c.paused = true
          · simp [Consumer.opSteps, Consumer.resumeSteps, h, hp, destroyCount]
          · have hp0 : c.paused = false := by simpa using hp
            simp [Consumer.opSteps, Consumer.resumeSteps, h, hp0, destroyCount]
        | onTrackEnded =>
          simp [Consumer.opSteps, Consumer.onTrackEndedSteps, destroyCount]
      have h2 : (c.applyOp op).closed = false := by
        rw [applyOp_closed_of_nonterm c op hterm0]; exact h
      rw [h1, ih _ h2, List.any_cons, hterm0]
      simp

/-- Destroying a track never changes its enabled flag. -/
theorem destroy_enabled (t : Track) : t.destroy.enabled = t.enabled := by
  by_cases h1 : t.removeListenerFails = true
  · simp [Track.destroy, Track.removeEndedListener, h1]
  · have h1' : t.removeListenerFails = false := by simpa using h1
    by_cases h2 : t.stopFails = true
    · simp [Track.destroy, Track.removeEndedListener, Track.stop, h1', h2]
    · have h2' : t.stopFails = false := by simpa using h2
      simp [Track.destroy, Track.removeEndedListener, Track.stop, h1', h2']

/-- A cooperative track is stopped and its listener detached by destroy. -/
theorem destroy_of_ok (t : Track) (h1 : t.removeListenerFails = false)
    (h2 : t.stopFails = false) :
    t.destroy = { t with endedListener := false, stopped := true } := by
  simp [Track.destroy, Track.removeEndedListener, Track.stop, h1, h2]

/-- `close()` always leaves the closed flag true. -/
theorem close_closed (c : Consumer) : (c.close).closed = true := by
  by_cases h : c.closed = true
  · rw [Consumer.close, applyOp_of_closed c _ h]; exact h
  · have h0 : c.closed = false := by simpa using h
    exact applyOp_closed_of_term c _ rfl h0

/-- `transportClosed()` always leaves the closed flag true. -/
theorem transportClosed_closed (c : Consumer) : (c.transportClosed).closed = true := by
  by_cases h : c.closed = true
  · rw [Consumer.transportClosed, applyOp_of_closed c _ h]; exact h
  · have h0 : c.closed = false := by simpa using h
    exact applyOp_closed_of_term c _ rfl h0

/-- From an open state, `close()` replaces the track by its destroyed form. -/
theorem close_track (c : Consumer) (h : c.closed = false) :
    (c.close).track = c.track.destroy := by
  simp [Consumer.close, Consumer.applyOp, Consumer.opSteps, Consumer.closeSteps,
    h, runSteps, applyStep]

/-- From an open state, `transportClosed()` replaces the track by its
destroyed form. -/
theorem transportClosed_track (c : Consumer) (h : c.closed = false) :
    (c.transportClosed).track = c.track.destroy := by
  simp [Consumer.transportClosed, Consumer.applyOp, Consumer.opSteps,
    Consumer.transportClosedSteps, h, runSteps, applyStep]

/-- In a termination step list (set closed, destroy, then two emissions),
the state at any emission already has the closed flag set and the track
destroyed. -/
theorem run_prefix_of_term_steps (c : Consumer) (a b : Emission)
    (p s : List Step) (e : Emission)
    (hps : [Step.setClosed, Step.destroyTrack, Step.emit a, Step.emit b]
      = p ++ Step.emit e :: s) :
    (runSteps c p).closed = true ∧ (runSteps c p).track = c.track.destroy := by
  rcases p with _ | ⟨x1, _ | ⟨x2, _ | ⟨x3, _ | ⟨x4, ptail⟩⟩⟩⟩
  · simp at hps
  · simp at hps
  · simp at hps
    obtain ⟨hx1, hx2, -, -⟩ := hps
    subst hx1; subst hx2
    simp [runSteps, applyStep]
  · simp at hps
    obtain ⟨hx1, hx2, hx3, -, -⟩ := hps
    subst hx1; subst hx2; subst hx3
    simp [runSteps, applyStep]
  · simp at hps

/-- Predicate: an emission is a public-channel `trackended`. -/
def isPublicTrackended : Emission → Bool
  | .main .trackended _ => true
  | _ => false

/-- Predicate: an emission is an observer-channel `trackended`. -/
def isObserverTrackended : Emission → Bool
  | .observer .trackended _ => true
  | _ => false

/-- Concrete constructor arguments used by witnesses. -/
def sampleOptions : ConsumerOptions :=
  { id := "consumer-1", localId := "local-1", producerId := "producer-1",
    rtpReceiver := none, track := sampleTrack,
    rtpParameters := { raw := "negotiated" }, appData := none }

/-! Claim theorems. -/

/-- C1: For every sequence of `pause()` and `resume()` calls on a Consumer
that is not closed (any Consumer freshly produced by the constructor stays
open under such calls), immediately after each call returns the owned
track's enabled flag equals the negation of the Consumer's paused flag.
Every prefix of a call sequence is itself a quantified sequence, so the
invariant holds after each intermediate call as well. -/
theorem C1_pause_resume_track_mirrors_paused (o : ConsumerOptions) (ops : List Op)
    (hops : ∀ op ∈ ops, op = Op.pause ∨ op = Op.resume) :
    ((Consumer.create o).runOps ops).track.enabled
      = !((Consumer.create o).runOps ops).paused := by
  have hinv : TrackMirrorsPaused (Consumer.create o) := by
    simp [TrackMirrorsPaused, Consumer.create, Consumer.initial,
      Consumer.createSteps, runSteps, applyStep]
  have main : ∀ (l : List Op) (c : Consumer),
      (∀ op ∈ l, op = Op.pause ∨ op = Op.resume) →
      TrackMirrorsPaused c → TrackMirrorsPaused (c.runOps l) := by
    intro l
    induction l with
    | nil => intro c _ hc; exact hc
    | cons op rest ih =>
      intro c hl hc
      have h1 : TrackMirrorsPaused (c.applyOp op) :=
        mirror_applyOp c op (hl op (by simp)) hc
      exact ih (c.applyOp op) (fun op2 h2 => hl op2 (by simp [h2])) h1
  exact main ops (Consumer.create o) hops hinv

/-- Witness for C1 at concrete constructor arguments and a concrete
pause/resume call sequence. -/
theorem C1_witness :
    (∀ op ∈ [Op.pause, Op.resume, Op.pause], op = Op.pause ∨ op = Op.resume) ∧
    ((Consumer.create sampleOptions).runOps [Op.pause, Op.resume, Op.pause]).track.enabled
      = !((Consumer.create sampleOptions).runOps [Op.pause, Op.resume, Op.pause]).paused :=
  ⟨by decide,
   C1_pause_resume_track_mirrors_paused sampleOptions
     [Op.pause, Op.resume, Op.pause] (by decide)⟩

/-- C2: the closed flag is monotonic — once `close()` or `transportClosed()`
has set it, it stays true under every further operation sequence — and every
subsequent `close()` or `transportClosed()` call on a closed Consumer is a
no-op that leaves the state unchanged and emits nothing on any channel. -/
theorem C2_closed_monotonic_and_idempotent (c : Consumer) (ops : List Op) :
    ((c.close).runOps ops).closed = true ∧
    ((c.transportClosed).runOps ops).closed = true ∧
    (c.closed = true →
      c.close = c ∧ c.closeEmissions = [] ∧
      c.transportClosed = c ∧ c.transportClosedEmissions = []) := by
  refine ⟨?_, ?_,
    fun hcl => ⟨applyOp_of_closed c _ hcl, ?_, applyOp_of_closed c _ hcl, ?_⟩⟩
  · rw [runOps_of_closed _ ops (close_closed c)]; exact close_closed c
  · rw [runOps_of_closed _ ops (transportClosed_closed c)]
    exact transportClosed_closed c
  · simp [Consumer.closeEmissions, Consumer.opEmissions, Consumer.opSteps,
      Consumer.closeSteps, hcl, emissionsOf]
  · simp [Consumer.transportClosedEmissions, Consumer.opEmissions,
      Consumer.opSteps, Consumer.transportClosedSteps, hcl, emissionsOf]

/-- Witness for C2 at a concrete open Consumer (monotonicity) and a concrete
closed Consumer (idempotent no-op). -/
theorem C2_witness :
    ((sampleOpen.close).runOps [Op.pause, Op.transportClosed]).closed = true ∧
    (sampleClosed.close = sampleClosed ∧ sampleClosed.closeEmissions = [] ∧
     sampleClosed.transportClosed = sampleClosed ∧
     sampleClosed.transportClosedEmissions = []) :=
  ⟨(C2_closed_monotonic_and_idempotent sampleOpen [Op.pause, Op.transportClosed]).1,
   (C2_closed_monotonic_and_idempotent sampleClosed []).2.2 rfl⟩

/-- C3: a track end-of-life notification arriving after `close()` yields
exactly one `trackended` emission on the public channel and exactly one on
the observer channel, and changes neither the state as a whole nor the
closed or paused flags (the handler cannot throw: it is total). -/
theorem C3_trackended_after_close (c : Consumer) :
    (c.close).onTrackEnded = c.close ∧
    ((c.close).onTrackEndedEmissions).countP isPublicTrackended = 1 ∧
    ((c.close).onTrackEndedEmissions).countP isObserverTrackended = 1 ∧
    ((c.close).onTrackEnded).closed = (c.close).closed ∧
    ((c.close).onTrackEnded).paused = (c.close).paused :=
  ⟨rfl, rfl, rfl, rfl, rfl⟩

/-- C4: `getStats()` on a closed Consumer (here: any Consumer after
`close()`) fails at once with the InvalidState error and emits no
`'@getstats'` event; on an open Consumer it returns a pending result and
emits exactly one `'@getstats'` event (whose payload in the source is the
pending promise's resolve/reject callback pair). -/
theorem C4_getStats_closed_guard (c : Consumer) :
    (c.close).getStats = (GetStatsOutcome.invalidStateError, []) ∧
    (c.closed = false →
      c.getStats = (GetStatsOutcome.pending,
        [Emission.main MainEvent.getstats Delivery.isolated])) := by
  constructor
  · simp [Consumer.getStats, close_closed c]
  · intro h; simp [Consumer.getStats, h]

/-- Witness for C4 at a concrete Consumer, closed and open. -/
theorem C4_witness :
    (sampleOpen.close).getStats = (GetStatsOutcome.invalidStateError, []) ∧
    sampleOpen.getStats = (GetStatsOutcome.pending,
      [Emission.main MainEvent.getstats Delivery.isolated]) :=
  ⟨(C4_getStats_closed_guard sampleOpen).1,
   (C4_getStats_closed_guard sampleOpen).2 rfl⟩

/-- C5 counterexample: the first terminating call does NOT disable the owned
track.  From the concrete open, active Consumer `sampleOpen` (track enabled),
`close()` stops the track but leaves its enabled flag true: `destroyTrack()`
only calls `removeEventListener` and `stop()`, never `track.enabled = false`. -/
theorem C5_counterexample :
    sampleOpen.closed = false ∧ sampleOpen.track.enabled = true ∧
    (sampleOpen.close).track.stopped = true ∧
    (sampleOpen.close).track.enabled = true := by
  decide

/-- C5 amended: the first terminating call (`close()` or `transportClosed()`)
stops the owned track and detaches its end-of-life listener, and this
stop-and-detach happens exactly once over the Consumer's whole lifetime
(exactly one destroy step occurs in the trace of an operation sequence iff
the sequence contains a terminating call); the track's enabled flag is left
unchanged by termination. -/
theorem C5_terminate_stops_track_once (c : Consumer) (ops : List Op)
    (h : c.closed = false) :
    destroyCount (c.opsTrace ops) = (if ops.any Op.isTerminating then 1 else 0) ∧
    (c.close).track.enabled = c.track.enabled ∧
    (c.transportClosed).track.enabled = c.track.enabled ∧
    (c.track.removeListenerFails = false → c.track.stopFails = false →
      (c.close).track.stopped = true ∧ (c.close).track.endedListener = false) := by
  refine ⟨destroyCount_trace_of_open c ops h, ?_, ?_, fun h1 h2 => ?_⟩
  · rw [close_track c h]; exact destroy_enabled c.track
  · rw [transportClosed_track c h]; exact destroy_enabled c.track
  · rw [close_track c h, destroy_of_ok c.track h1 h2]
    exact ⟨rfl, rfl⟩

/-- Witness for C5 at a concrete open Consumer and call sequence containing
one effective and one redundant terminating call. -/
theorem C5_witness :
    sampleOpen.closed = false ∧
    destroyCount (sampleOpen.opsTrace [Op.pause, Op.close, Op.close]) = 1 ∧
    (sampleOpen.close).track.stopped = true ∧
    (sampleOpen.close).track.endedListener = false :=
  ⟨rfl,
   by
     have h :=
       (C5_terminate_stops_track_once sampleOpen [Op.pause, Op.close, Op.close] rfl).1
     simpa using h,
   ((C5_terminate_stops_track_once sampleOpen [] rfl).2.2.2 rfl rfl).1,
   ((C5_terminate_stops_track_once sampleOpen [] rfl).2.2.2 rfl rfl).2⟩

/-- C6 counterexample: not every internal/privileged event is emitted without
the failure-isolating wrapper.  On the concrete open Consumer `sampleOpen`,
`getStats()` emits its `'@getstats'` stats-request via `safeEmit` — the
failure-isolating delivery — not via plain `emit`. -/
theorem C6_counterexample :
    sampleOpen.closed = false ∧
    (sampleOpen.getStats).2 = [Emission.main MainEvent.getstats Delivery.isolated] ∧
    (sampleOpen.getStats).2 ≠ [Emission.main MainEvent.getstats Delivery.plain] := by
  refine ⟨rfl, rfl, ?_⟩
  decide

/-- C6 amended: the `'@close'`, `'@pause'` and `'@resume'` internal signals
are emitted with the plain, non-isolating `emit` (a handler failure
propagates to the caller of the triggering operation), while the
`'@getstats'` stats-request is emitted with the failure-isolating
`safeEmit`. -/
theorem C6_signal_delivery_modes (c : Consumer) (h : c.closed = false) :
    c.closeEmissions
      = [Emission.main MainEvent.closeSignal Delivery.plain,
         Emission.observer ObserverEvent.close Delivery.isolated] ∧
    (c.paused = false →
      c.pauseEmissions
        = [Emission.main MainEvent.pauseSignal Delivery.plain,
           Emission.observer ObserverEvent.pause Delivery.isolated]) ∧
    (c.paused = true →
      c.resumeEmissions
        = [Emission.main MainEvent.resumeSignal Delivery.plain,
           Emission.observer ObserverEvent.resume Delivery.isolated]) ∧
    (c.getStats).2 = [Emission.main MainEvent.getstats Delivery.isolated] := by
  refine ⟨?_, fun hp => ?_, fun hp => ?_, ?_⟩
  · simp [Consumer.closeEmissions, Consumer.opEmissions, Consumer.opSteps,
      Consumer.closeSteps, h, emissionsOf]
  · simp [Consumer.pauseEmissions, Consumer.opEmissions, Consumer.opSteps,
      Consumer.pauseSteps, h, hp, emissionsOf]
  · simp [Consumer.resumeEmissions, Consumer.opEmissions, Consumer.opSteps,
      Consumer.resumeSteps, h, hp, emissionsOf]
  · simp [Consumer.getStats, h]

/-- Witness for C6 at a concrete open, active Consumer. -/
theorem C6_witness :
    sampleOpen.closeEmissions
      = [Emission.main MainEvent.closeSignal Delivery.plain,
         Emission.observer ObserverEvent.close Delivery.isolated] ∧
    sampleOpen.pauseEmissions
      = [Emission.main MainEvent.pauseSignal Delivery.plain,
         Emission.observer ObserverEvent.pause Delivery.isolated] ∧
    (sampleOpen.getStats).2
      = [Emission.main MainEvent.getstats Delivery.isolated] :=
  ⟨(C6_signal_delivery_modes sampleOpen rfl).1,
   (C6_signal_delivery_modes sampleOpen rfl).2.1 rfl,
   (C6_signal_delivery_modes sampleOpen rfl).2.2.2⟩

/-- C7: calling `pause()` when already paused, or `resume()` when already
active, leaves the whole Consumer state (including the track's enabled flag)
unchanged and emits no event on any channel. -/
theorem C7_redundant_pause_resume_noop (c : Consumer) :
    (c.paused = true → c.pause = c ∧ c.pauseEmissions = []) ∧
    (c.paused = false → c.resume = c ∧ c.resumeEmissions = []) := by
  constructor
  · intro hp
    by_cases hc : c.closed = true
    · refine ⟨applyOp_of_closed c _ hc, ?_⟩
      simp [Consumer.pauseEmissions, Consumer.opEmissions, Consumer.opSteps,
        Consumer.pauseSteps, hc, emissionsOf]
    · have hc0 : c.closed = false := by simpa using hc
      constructor
      · simp [Consumer.pause, Consumer.applyOp, Consumer.opSteps,
          Consumer.pauseSteps, hc0, hp, runSteps]
      · simp [Consumer.pauseEmissions, Consumer.opEmissions, Consumer.opSteps,
          Consumer.pauseSteps, hc0, hp, emissionsOf]
  · intro hp
    by_cases hc : c.closed = true
    · refine ⟨applyOp_of_closed c _ hc, ?_⟩
      simp [Consumer.resumeEmissions, Consumer.opEmissions, Consumer.opSteps,
        Consumer.resumeSteps, hc, emissionsOf]
    · have hc0 : c.closed = false := by simpa using hc
      constructor
      · simp [Consumer.resume, Consumer.applyOp, Consumer.opSteps,
          Consumer.resumeSteps, hc0, hp, runSteps]
      · simp [Consumer.resumeEmissions, Consumer.opEmissions, Consumer.opSteps,
          Consumer.resumeSteps, hc0, hp, emissionsOf]

/-- Witness for C7 at a concrete paused Consumer and a concrete active one. -/
theorem C7_witness :
    (samplePaused.pause = samplePaused ∧ samplePaused.pauseEmissions = []) ∧
    (sampleOpen.resume = sampleOpen ∧ sampleOpen.resumeEmissions = []) :=
  ⟨(C7_redundant_pause_resume_noop samplePaused).1 rfl,
   (C7_redundant_pause_resume_noop sampleOpen).2 rfl⟩

/-- C8: the constructor sets the initial paused flag to the negation of the
supplied track's enabled flag, starts open, leaves the track's enabled flag
untouched, and emits nothing (its only step is attaching the track's
end-of-life listener). -/
theorem C8_constructor_derives_paused (o : ConsumerOptions) :
    (Consumer.create o).paused = !o.track.enabled ∧
    (Consumer.create o).closed = false ∧
    (Consumer.create o).track.enabled = o.track.enabled ∧
    emissionsOf Consumer.createSteps = [] := by
  refine ⟨?_, rfl, rfl, rfl⟩
  simp [Consumer.create, Consumer.initial, Consumer.createSteps, runSteps, applyStep]

/-- C9: if stopping or detaching the track fails during termination, both
`close()` and `transportClosed()` swallow the failure, still set the closed
flag, and still complete normally, emitting their usual events. -/
theorem C9_termination_tolerates_track_failure (c : Consumer)
    (h : c.closed = false)
    (_hfail : c.track.removeListenerFails = true ∨ c.track.stopFails = true) :
    (c.close).closed = true ∧
    c.closeEmissions
      = [Emission.main MainEvent.closeSignal Delivery.plain,
         Emission.observer ObserverEvent.close Delivery.isolated] ∧
    (c.transportClosed).closed = true ∧
    c.transportClosedEmissions
      = [Emission.main MainEvent.transportclose Delivery.isolated,
         Emission.observer ObserverEvent.close Delivery.isolated] := by
  refine ⟨close_closed c, ?_, transportClosed_closed c, ?_⟩
  · simp [Consumer.closeEmissions, Consumer.opEmissions, Consumer.opSteps,
      Consumer.closeSteps, h, emissionsOf]
  · simp [Consumer.transportClosedEmissions, Consumer.opEmissions,
      Consumer.opSteps, Consumer.transportClosedSteps, h, emissionsOf]

/-- Witness for C9 at a concrete open Consumer whose track's `stop()`
throws. -/
theorem C9_witness :
    sampleStopFailing.closed = false ∧
    sampleStopFailing.track.stopFails = true ∧
    (sampleStopFailing.close).closed = true ∧
    sampleStopFailing.closeEmissions
      = [Emission.main MainEvent.closeSignal Delivery.plain,
         Emission.observer ObserverEvent.close Delivery.isolated] :=
  ⟨rfl, rfl,
   (C9_termination_tolerates_track_failure sampleStopFailing rfl (Or.inr rfl)).1,
   (C9_termination_tolerates_track_failure sampleStopFailing rfl (Or.inr rfl)).2.1⟩

/-- C10: in `close()` and `transportClosed()`, the closed flag is set and the
track destroyed (detached and stopped) strictly before any event is emitted:
at every decomposition of the method's step list around an emission step, the
state reached by the steps before that emission already has the closed flag
true and the track in its destroyed form.  Since emission steps do not change
the state, a listener that throws during any emission leaves the caller
observing a Consumer that is already closed with its track already
destroyed. -/
theorem C10_closed_before_emissions (c : Consumer) (h : c.closed = false) :
    (∀ p s e, c.closeSteps = p ++ Step.emit e :: s →
      (runSteps c p).closed = true ∧ (runSteps c p).track = c.track.destroy) ∧
    (∀ p s e, c.transportClosedSteps = p ++ Step.emit e :: s →
      (runSteps c p).closed = true ∧ (runSteps c p).track = c.track.destroy) := by
  constructor
  · intro p s e hps
    have hl : c.closeSteps
        = [Step.setClosed, Step.destroyTrack,
           Step.emit (Emission.main MainEvent.closeSignal Delivery.plain),
           Step.emit (Emission.observer ObserverEvent.close Delivery.isolated)] := by
      simp [Consumer.closeSteps, h]
    rw [hl] at hps
    exact run_prefix_of_term_steps c _ _ p s e hps
  · intro p s e hps
    have hl : c.transportClosedSteps
        = [Step.setClosed, Step.destroyTrack,
           Step.emit (Emission.main MainEvent.transportclose Delivery.isolated),
           Step.emit (Emission.observer ObserverEvent.close Delivery.isolated)] := by
      simp [Consumer.transportClosedSteps, h]
    rw [hl] at hps
    exact run_prefix_of_term_steps c _ _ p s e hps

/-- Witness for C10 at a concrete open Consumer, decomposing the `close()`
step list around its first emission. -/
theorem C10_witness :
    (runSteps sampleOpen [Step.setClosed, Step.destroyTrack]).closed = true ∧
    (runSteps sampleOpen [Step.setClosed, Step.destroyTrack]).track
      = sampleOpen.track.destroy :=
  (C10_closed_before_emissions sampleOpen rfl).1
    [Step.setClosed, Step.destroyTrack]
    [Step.emit (Emission.observer ObserverEvent.close Delivery.isolated)]
    (Emission.main MainEvent.closeSignal Delivery.plain)
    (by decide)

end Mediasoup
